import Mathlib

/-!
Shallow embedding of the per-port operation coordinator of
`src/unifi_webhook_server.py` (class `UniFiPortController`), together with
proofs about its rate limiter, device-cooldown gate, deferred queue and
status inference.

Modelling conventions:
* Timestamps (Python `time.time()` float seconds) are rationals (`ℚ`).
* Python dicts keyed by strings / ints are association lists with
  overwriting insertion (`dictSet`) and `get` (`dictGet` / `dictGetD`).
* The external UniFi API call (`_make_request` inside
  `_execute_power_cycle`) is opaque: its outcome is a parameter
  (`AdapterOutcome`), and every attempted call is emitted as a
  `DeviceCall` record so that theorems can talk about which device-level
  actions a code path issues.
* Python `int()` truncation toward zero is `pyInt`.
* The `timestamp` field of the returned dicts (`datetime.now().isoformat()`)
  is wall-clock formatting, irrelevant to every property here, and is not
  modelled.
-/

namespace UniFiWebhook

/-- Overwriting insertion into an association list, modelling Python dict
assignment `d[k] = v`. -/
def dictSet {α β : Type} [DecidableEq α] : List (α × β) → α → β → List (α × β)
  | [], k, v => [(k, v)]
  | (k2, v2) :: rest, k, v =>
      if k2 = k then (k, v) :: rest else (k2, v2) :: dictSet rest k v

/-- Association-list lookup, modelling Python `d.get(k)` and `k in d`. -/
def dictGet {α β : Type} [DecidableEq α] : List (α × β) → α → Option β
  | [], _ => none
  | (k2, v2) :: rest, k => if k2 = k then some v2 else dictGet rest k

/-- Python `d.get(k, default)`. -/
def dictGetD {α β : Type} [DecidableEq α] (m : List (α × β)) (k : α) (d : β) : β :=
  (dictGet m k).getD d

/-- Python `int()` applied to a float: truncation toward zero. -/
def pyInt (q : ℚ) : ℤ := if 0 ≤ q then ⌊q⌋ else -⌊-q⌋

/-- `self.rate_limit_seconds = 30` — cooldown of the per-operation rate
limiter. -/
def rate_limit_seconds : ℚ := 30

/-- `self.unifi_cooldown = 10` — seconds to wait between UniFi operations on
the same port. -/
def unifi_cooldown : ℚ := 10

/-- One entry of `self.operation_queue`: the dict
`{'port': .., 'action': .., 'delay': ..}` pushed by the deferred branch. -/
structure QueuedJob where
  port : ℕ
  action : String
  delay : ℚ
  deriving Repr, DecidableEq

/-- The mutable state of `UniFiPortController`:
`self.last_operation_time` (keyed by the string `f"{port}:{operation}"`),
`self.operation_queue` (FIFO, front = next to be dequeued), and
`self.last_unifi_operation` (keyed by port). -/
structure ControllerState where
  last_operation_time : List (String × ℚ)
  operation_queue : List QueuedJob
  last_unifi_operation : List (ℕ × ℚ)
  deriving Repr, DecidableEq

/-- Controller state right after `__init__`: all maps and the queue empty. -/
def initialState : ControllerState := ⟨[], [], []⟩

/-- `_get_operation_key`: `f"{port}:{operation}"`. -/
def _get_operation_key (port : ℕ) (operation : String) : String :=
  toString port ++ ":" ++ operation

/-- `_is_port_operation_rate_limited`: the key is absent → not limited;
otherwise limited iff `time.time() - last < rate_limit_seconds`. -/
def _is_port_operation_rate_limited (s : ControllerState) (now : ℚ)
    (port : ℕ) (operation : String) : Bool :=
  match dictGet s.last_operation_time (_get_operation_key port operation) with
  | none => false
  | some t => decide (now - t < rate_limit_seconds)

/-- `_record_port_operation`: `self.last_operation_time[key] = time.time()`. -/
def _record_port_operation (s : ControllerState) (now : ℚ)
    (port : ℕ) (operation : String) : ControllerState :=
  { s with last_operation_time :=
      dictSet s.last_operation_time (_get_operation_key port operation) now }

/-- `_can_execute_immediately`: true when the port has no entry in
`self.last_unifi_operation`, or at least `unifi_cooldown` seconds have
elapsed since that entry. -/
def _can_execute_immediately (s : ControllerState) (now : ℚ) (port : ℕ) : Bool :=
  match dictGet s.last_unifi_operation port with
  | none => true
  | some t => decide (now - t ≥ unifi_cooldown)

/-- Outcome of the one opaque external API call made by
`_execute_power_cycle`: an HTTP response with some status code, or a raised
exception. -/
inductive AdapterOutcome where
  | http (code : ℕ)
  | exn (msg : String)
  deriving Repr, DecidableEq

/-- A device-level action actually sent to the UniFi API: the POST body is
always `{"action": "POWER_CYCLE"}`. -/
structure DeviceCall where
  port : ℕ
  deviceAction : String
  deriving Repr, DecidableEq

/-- The result dict returned by the mutating operations. Fields that a given
code path does not set are `none` / `false` (Python: key absent, read back
with `.get(..., default)`). -/
structure OpResult where
  success : Bool
  action : String
  port : ℕ
  status : Option String := none
  error : Option String := none
  rate_limited : Bool := false
  retry_after : Option ℤ := none
  queued_delay : Option ℚ := none
  message : Option String := none
  deriving Repr, DecidableEq

/-- `_get_rate_limit_response`: builds the standardized 429 payload with
`retry_after = int(rate_limit_seconds - (time.time() - last_operation_time.get(key, 0)))`. -/
def _get_rate_limit_response (s : ControllerState) (now : ℚ)
    (port : ℕ) (action : String) : OpResult :=
  let key := _get_operation_key port action
  let time_remaining := rate_limit_seconds - (now - dictGetD s.last_operation_time key 0)
  { success := false
    action := action
    port := port
    error := some ("Rate limited. Please wait " ++ toString (pyInt time_remaining)
      ++ " seconds before next " ++ action ++ " operation")
    rate_limited := true
    retry_after := some (pyInt time_remaining) }

/-- `_execute_power_cycle`: one attempted POST of `{"action": "POWER_CYCLE"}`
for the port; HTTP 200 → success result with status `"cycling"`, any other
code → failure with error `"HTTP <code>"`, exception → failure with the
exception text. -/
def _execute_power_cycle (port : ℕ) (action : String)
    (outcome : AdapterOutcome) : OpResult × List DeviceCall :=
  let call : DeviceCall := { port := port, deviceAction := "POWER_CYCLE" }
  match outcome with
  | AdapterOutcome.http code =>
      if code = 200 then
        ({ success := true, action := action, port := port,
           status := some "cycling" }, [call])
      else
        ({ success := false, action := action, port := port,
           error := some ("HTTP " ++ toString code) }, [call])
  | AdapterOutcome.exn msg =>
      ({ success := false, action := action, port := port,
         error := some msg }, [call])

/-- `power_on_port`: records `power_on` for status tracking and returns the
fixed `no_action_needed` success result; no rate-limit check, no device
call. -/
def power_on_port (port : ℕ) (now : ℚ) (s : ControllerState) :
    OpResult × ControllerState × List DeviceCall :=
  let s1 := _record_port_operation s now port "power_on"
  ({ success := true
     action := "power_on"
     port := port
     status := some "no_action_needed"
     message := some "Port will power on automatically after power cycle" },
   s1, [])

/-- `power_off_port`: rate-limit check for `(port, "power_off")`, record,
then either execute the power cycle immediately (updating
`last_unifi_operation` on success) or enqueue a deferred job and answer
`"queued"`. -/
def power_off_port (port : ℕ) (now : ℚ) (outcome : AdapterOutcome)
    (s : ControllerState) : OpResult × ControllerState × List DeviceCall :=
  if _is_port_operation_rate_limited s now port "power_off" then
    (_get_rate_limit_response s now port "power_off", s, [])
  else
    let s1 := _record_port_operation s now port "power_off"
    if _can_execute_immediately s1 now port then
      let rc := _execute_power_cycle port "power_off" outcome
      let s2 := if rc.1.success then
          { s1 with last_unifi_operation := dictSet s1.last_unifi_operation port now }
        else s1
      (rc.1, s2, rc.2)
    else
      let delay := unifi_cooldown - (now - dictGetD s1.last_unifi_operation port 0)
      let s2 := { s1 with operation_queue :=
          s1.operation_queue ++ [{ port := port, action := "power_off", delay := max 0 delay }] }
      ({ success := true
         action := "power_off"
         port := port
         status := some "queued"
         queued_delay := some (max 0 delay)
         message := some ("Operation queued for execution in "
           ++ toString (max 0 (pyInt delay)) ++ " seconds") },
       s2, [])

/-- `power_cycle_port`: same shape as `power_off_port` with the
`"power_cycle"` label. -/
def power_cycle_port (port : ℕ) (now : ℚ) (outcome : AdapterOutcome)
    (s : ControllerState) : OpResult × ControllerState × List DeviceCall :=
  if _is_port_operation_rate_limited s now port "power_cycle" then
    (_get_rate_limit_response s now port "power_cycle", s, [])
  else
    let s1 := _record_port_operation s now port "power_cycle"
    if _can_execute_immediately s1 now port then
      let rc := _execute_power_cycle port "power_cycle" outcome
      let s2 := if rc.1.success then
          { s1 with last_unifi_operation := dictSet s1.last_unifi_operation port now }
        else s1
      (rc.1, s2, rc.2)
    else
      let delay := unifi_cooldown - (now - dictGetD s1.last_unifi_operation port 0)
      let s2 := { s1 with operation_queue :=
          s1.operation_queue ++ [{ port := port, action := "power_cycle", delay := max 0 delay }] }
      ({ success := true
         action := "power_cycle"
         port := port
         status := some "queued"
         queued_delay := some (max 0 delay)
         message := some ("Operation queued for execution in "
           ++ toString (max 0 (pyInt delay)) ++ " seconds") },
       s2, [])

/-- Modelled from the spec: the common algorithm that §4.3 says
`power_off_port` and `power_cycle_port` both follow, parameterized by the
logical-operation label. Used only to state and prove claim C8
(observational equivalence up to relabeling). -/
def genericPowerOp (opLabel : String) (port : ℕ) (now : ℚ)
    (outcome : AdapterOutcome) (s : ControllerState) :
    OpResult × ControllerState × List DeviceCall :=
  if _is_port_operation_rate_limited s now port opLabel then
    (_get_rate_limit_response s now port opLabel, s, [])
  else
    let s1 := _record_port_operation s now port opLabel
    if _can_execute_immediately s1 now port then
      let rc := _execute_power_cycle port opLabel outcome
      let s2 := if rc.1.success then
          { s1 with last_unifi_operation := dictSet s1.last_unifi_operation port now }
        else s1
      (rc.1, s2, rc.2)
    else
      let delay := unifi_cooldown - (now - dictGetD s1.last_unifi_operation port 0)
      let s2 := { s1 with operation_queue :=
          s1.operation_queue ++ [{ port := port, action := opLabel, delay := max 0 delay }] }
      ({ success := true
         action := opLabel
         port := port
         status := some "queued"
         queued_delay := some (max 0 delay)
         message := some ("Operation queued for execution in "
           ++ toString (max 0 (pyInt delay)) ++ " seconds") },
       s2, [])

/-- The result dict of `get_port_status`. -/
structure StatusResult where
  success : Bool
  port : ℕ
  status : String
  method : String
  deriving Repr, DecidableEq

/-- `get_port_status`: compares `last_operation_time.get(f"{port}:power_off", 0)`
with `last_operation_time.get(f"{port}:power_on", 0)`; strictly more recent
power_off → `"status: stopped"`, else `"status: running"`. Makes no device
call. -/
def get_port_status (port : ℕ) (s : ControllerState) :
    StatusResult × List DeviceCall :=
  let power_off_time := dictGetD s.last_operation_time (toString port ++ ":power_off") 0
  let power_on_time := dictGetD s.last_operation_time (toString port ++ ":power_on") 0
  let status := if power_off_time > power_on_time then "stopped" else "running"
  ({ success := true
     port := port
     status := "status: " ++ status
     method := "operation_tracking" }, [])

/-- One iteration of the body of `queue_worker` when the queue is nonempty:
pop the front job, (sleep `delay` — real time, not modelled), run
`_execute_power_cycle`, and set `last_unifi_operation[port] = time.time()`
only when the result was a success; the job is discarded either way and no
result is returned to any caller. -/
def queue_worker_step (now : ℚ) (outcome : AdapterOutcome)
    (s : ControllerState) : ControllerState × List DeviceCall :=
  match s.operation_queue with
  | [] => (s, [])
  | job :: rest =>
      let rc := _execute_power_cycle job.port job.action outcome
      let s1 : ControllerState :=
        { s with operation_queue := rest }
      if rc.1.success then
        ({ s1 with last_unifi_operation := dictSet s1.last_unifi_operation job.port now },
         rc.2)
      else
        (s1, rc.2)

/-- Program counter of one request-handling thread executing the
check-then-record prefix of `power_off_port` / `power_cycle_port`
(source lines 217-221 / 252-256). The source serializes neither step:
`self.last_operation_time` is a plain dict shared between request threads,
and `UniFiPortController.__init__` creates no lock, so the check
(`_is_port_operation_rate_limited`) and the record
(`_record_port_operation`) are two separate atomic actions.
pc 0 = about to check; pc 1 = checked, `accepted` holds the negated check
result, about to record when accepted; pc 2 = done. -/
structure RaceThread where
  pc : ℕ
  accepted : Bool
  deriving Repr, DecidableEq

/-- One atomic step of a request thread at the shared controller state. -/
def raceStep (p : ℕ) (op : String) (now : ℚ) (s : ControllerState)
    (t : RaceThread) : ControllerState × RaceThread :=
  match t.pc with
  | 0 => (s, { pc := 1, accepted := !(_is_port_operation_rate_limited s now p op) })
  | 1 =>
      if t.accepted then
        (_record_port_operation s now p op, { pc := 2, accepted := t.accepted })
      else (s, { pc := 2, accepted := t.accepted })
  | _ => (s, t)

/-- Run two request threads for the same (port, op, now) under a schedule:
`true` steps thread A, `false` steps thread B, both sharing the controller
state. -/
def runRace (p : ℕ) (op : String) (now : ℚ) :
    List Bool → ControllerState × RaceThread × RaceThread →
      ControllerState × RaceThread × RaceThread
  | [], st => st
  | b :: sched, st =>
      if b then
        let r := raceStep p op now st.1 st.2.1
        runRace p op now sched (r.1, r.2, st.2.2)
      else
        let r := raceStep p op now st.1 st.2.2
        runRace p op now sched (r.1, st.2.1, r.2)

/-! ### Association-list lemmas -/

theorem dictGet_dictSet {α β : Type} [DecidableEq α] (m : List (α × β)) (k k' : α) (v : β) :
    dictGet (dictSet m k v) k' = if k = k' then some v else dictGet m k' := by
  induction m with
  | nil => rfl
  | cons hd rest ih =>
    obtain ⟨a, b⟩ := hd
    by_cases h₁ : a = k
    · subst h₁
      simp only [dictSet, if_pos rfl]
      by_cases h₂ : a = k'
      · subst h₂; simp [dictGet]
      · simp [dictGet, h₂]
    · simp only [dictSet, if_neg h₁]
      by_cases h₂ : a = k'
      · subst h₂
        have hkk : k ≠ a := fun h => h₁ h.symm
        simp [dictGet, if_neg hkk]
      · simp [dictGet, h₂, ih]

theorem dictGet_dictSet_self {α β : Type} [DecidableEq α] (m : List (α × β)) (k : α) (v : β) :
    dictGet (dictSet m k v) k = some v := by
  rw [dictGet_dictSet, if_pos rfl]

theorem dictGet_dictSet_ne {α β : Type} [DecidableEq α] (m : List (α × β)) {k k' : α} (v : β)
    (h : k ≠ k') : dictGet (dictSet m k v) k' = dictGet m k' := by
  rw [dictGet_dictSet, if_neg h]

/-! ### Injectivity of the string operation key `f"{port}:{operation}"` -/

theorem digitChar_eq_star (d : ℕ) (hd : 16 ≤ d) : Nat.digitChar d = '*' := by
  unfold Nat.digitChar
  repeat rw [if_neg (by omega)]

theorem digitChar_ne_colon (d : ℕ) : Nat.digitChar d ≠ ':' := by
  by_cases hd : d < 16
  · have h16 : ∀ e < 16, Nat.digitChar e ≠ ':' := by decide
    exact h16 d hd
  · rw [digitChar_eq_star d (by omega)]
    decide

theorem digitChar_inj_lt : ∀ d₁ < 10, ∀ d₂ < 10,
    Nat.digitChar d₁ = Nat.digitChar d₂ → d₁ = d₂ := by decide

theorem toDigitsCore_succ (b f n : ℕ) (l : List Char) :
    Nat.toDigitsCore b (f + 1) n l =
      if n / b = 0 then Nat.digitChar (n % b) :: l
      else Nat.toDigitsCore b f (n / b) (Nat.digitChar (n % b) :: l) := rfl

theorem toDigitsCore_eq_digits (b : ℕ) (hb : 1 < b) :
    ∀ (f n : ℕ) (l : List Char), n < b ^ f → 0 < n →
      Nat.toDigitsCore b f n l = ((Nat.digits b n).map Nat.digitChar).reverse ++ l := by
  intro f
  induction f with
  | zero =>
    intro n l hlt hn
    rw [pow_zero] at hlt
    omega
  | succ f ih =>
    intro n l hlt hn
    rw [toDigitsCore_succ]
    rw [Nat.digits_def' hb hn]
    by_cases hdiv : n / b = 0
    · rw [if_pos hdiv]
      have : Nat.digits b (n / b) = [] := by rw [hdiv]; simp
      simp [this]
    · rw [if_neg hdiv]
      have hpos : 0 < n / b := Nat.pos_of_ne_zero hdiv
      have hlt' : n / b < b ^ f := by
        have hb0 : 0 < b := by omega
        rw [Nat.div_lt_iff_lt_mul hb0]
        calc n < b ^ (f + 1) := hlt
        _ = b ^ f * b := by ring
      rw [ih (n / b) (Nat.digitChar (n % b) :: l) hlt' hpos]
      simp

theorem toDigits_eq_digits (n : ℕ) (hn : 0 < n) :
    Nat.toDigits 10 n = ((Nat.digits 10 n).map Nat.digitChar).reverse := by
  unfold Nat.toDigits
  have h1 : n < 10 ^ (n + 1) := by
    calc n < 10 ^ n := Nat.lt_pow_self (by norm_num) n
    _ ≤ 10 ^ (n + 1) := Nat.pow_le_pow_right (by norm_num) (Nat.le_succ n)
  rw [toDigitsCore_eq_digits 10 (by norm_num) (n + 1) n [] h1 hn]
  simp

theorem toDigits_zero10 : Nat.toDigits 10 0 = ['0'] := rfl

theorem map_digitChar_inj : ∀ (l₁ l₂ : List ℕ), (∀ d ∈ l₁, d < 10) → (∀ d ∈ l₂, d < 10) →
    l₁.map Nat.digitChar = l₂.map Nat.digitChar → l₁ = l₂ := by
  intro l₁
  induction l₁ with
  | nil => intro l₂ _ _ h; cases l₂ <;> simp_all
  | cons a l ih =>
    intro l₂ h₁ h₂ h
    cases l₂ with
    | nil => simp_all
    | cons b l' =>
      simp only [List.map_cons, List.cons.injEq] at h
      have ha : a = b := digitChar_inj_lt a (h₁ a (by simp)) b (h₂ b (by simp)) h.1
      have : l = l' := ih l' (fun d hd => h₁ d (by simp [hd])) (fun d hd => h₂ d (by simp [hd])) h.2
      rw [ha, this]

theorem toDigits_inj {m n : ℕ} (h : Nat.toDigits 10 m = Nat.toDigits 10 n) : m = n := by
  rcases Nat.eq_zero_or_pos m with rfl | hm <;> rcases Nat.eq_zero_or_pos n with rfl | hn
  · rfl
  · exfalso
    rw [toDigits_zero10, toDigits_eq_digits n hn] at h
    have : (Nat.digits 10 n).map Nat.digitChar = ['0'] := by
      have := congrArg List.reverse h
      simpa using this.symm
    have hd : Nat.digits 10 n = [0] := by
      apply map_digitChar_inj _ [0] (fun d hd => Nat.digits_lt_base (by norm_num) hd) (by simp)
      simpa using this
    have : n = 0 := by
      have h0 := Nat.ofDigits_digits 10 n
      rw [hd] at h0
      simpa [Nat.ofDigits] using h0.symm
    omega
  · exfalso
    rw [toDigits_zero10, toDigits_eq_digits m hm] at h
    have : (Nat.digits 10 m).map Nat.digitChar = ['0'] := by
      have := congrArg List.reverse h
      simpa using this
    have hd : Nat.digits 10 m = [0] := by
      apply map_digitChar_inj _ [0] (fun d hd => Nat.digits_lt_base (by norm_num) hd) (by simp)
      simpa using this
    have : m = 0 := by
      have h0 := Nat.ofDigits_digits 10 m
      rw [hd] at h0
      simpa [Nat.ofDigits] using h0.symm
    omega
  · rw [toDigits_eq_digits m hm, toDigits_eq_digits n hn] at h
    have h2 : (Nat.digits 10 m).map Nat.digitChar = (Nat.digits 10 n).map Nat.digitChar := by
      have := congrArg List.reverse h
      simpa using this
    have hd : Nat.digits 10 m = Nat.digits 10 n :=
      map_digitChar_inj _ _ (fun d hd => Nat.digits_lt_base (by norm_num) hd)
        (fun d hd => Nat.digits_lt_base (by norm_num) hd) h2
    have h0 := Nat.ofDigits_digits 10 m
    rw [hd, Nat.ofDigits_digits] at h0
    omega

theorem natRepr_inj {m n : ℕ} (h : Nat.repr m = Nat.repr n) : m = n := by
  unfold Nat.repr at h
  rw [List.asString_inj] at h
  exact toDigits_inj h

theorem colon_not_mem_toDigits (n : ℕ) : ':' ∉ Nat.toDigits 10 n := by
  rcases Nat.eq_zero_or_pos n with rfl | hn
  · decide
  · rw [toDigits_eq_digits n hn]
    intro hmem
    rw [List.mem_reverse, List.mem_map] at hmem
    obtain ⟨d, _, hd⟩ := hmem
    exact digitChar_ne_colon d hd

theorem append_colon_inj : ∀ (a₁ a₂ t₁ t₂ : List Char), ':' ∉ a₁ → ':' ∉ a₂ →
    a₁ ++ ':' :: t₁ = a₂ ++ ':' :: t₂ → a₁ = a₂ ∧ t₁ = t₂ := by
  intro a₁
  induction a₁ with
  | nil =>
    intro a₂ t₁ t₂ _ h₂ h
    cases a₂ with
    | nil => simpa using h
    | cons c a' =>
      simp only [List.nil_append, List.cons_append, List.cons.injEq] at h
      exact absurd (h.1 ▸ List.mem_cons_self c a') (by simp_all)
  | cons c a ih =>
    intro a₂ t₁ t₂ h₁ h₂ h
    cases a₂ with
    | nil =>
      simp only [List.nil_append, List.cons_append, List.cons.injEq] at h
      exact absurd (h.1 ▸ List.mem_cons_self c a) (by simp_all)
    | cons c' a' =>
      simp only [List.cons_append, List.cons.injEq] at h
      have := ih a' t₁ t₂ (by simp_all) (by simp_all) h.2
      exact ⟨by rw [h.1, this.1], this.2⟩

/-- The dict key `f"{port}:{operation}"` is injective for colon-free
operation names: two distinct `(port, operation)` pairs never collide in
`last_operation_time`. -/
theorem operation_key_inj {p₁ p₂ : ℕ} {op₁ op₂ : String}
    (h₁ : ':' ∉ op₁.data) (h₂ : ':' ∉ op₂.data)
    (h : _get_operation_key p₁ op₁ = _get_operation_key p₂ op₂) : p₁ = p₂ ∧ op₁ = op₂ := by
  unfold _get_operation_key at h
  have hdata := congrArg String.data h
  simp only [String.data_append] at hdata
  simp only [List.append_assoc, List.singleton_append] at hdata
  have hrepr : ∀ p : ℕ, (toString p).data = Nat.toDigits 10 p := by
    intro p
    show (Nat.repr p).data = _
    unfold Nat.repr
    rfl
  rw [hrepr p₁, hrepr p₂] at hdata
  have := append_colon_inj _ _ _ _ (colon_not_mem_toDigits p₁) (colon_not_mem_toDigits p₂) hdata
  refine ⟨?_, ?_⟩
  · apply natRepr_inj
    show Nat.repr p₁ = Nat.repr p₂
    unfold Nat.repr
    rw [List.asString_inj]
    exact this.1
  · cases op₁; cases op₂
    exact congrArg String.mk this.2

/-! ### Small unfolding lemmas about the controller -/

theorem record_last_unifi_operation (s : ControllerState) (now : ℚ) (p : ℕ) (op : String) :
    (_record_port_operation s now p op).last_unifi_operation = s.last_unifi_operation := rfl

theorem record_operation_queue (s : ControllerState) (now : ℚ) (p : ℕ) (op : String) :
    (_record_port_operation s now p op).operation_queue = s.operation_queue := rfl

theorem can_execute_record (s : ControllerState) (now now' : ℚ) (p p' : ℕ) (op' : String) :
    _can_execute_immediately (_record_port_operation s now' p' op') now p =
      _can_execute_immediately s now p := rfl

theorem execute_power_cycle_calls (p : ℕ) (lbl : String) (o : AdapterOutcome) :
    (_execute_power_cycle p lbl o).2 = [{ port := p, deviceAction := "POWER_CYCLE" }] := by
  unfold _execute_power_cycle
  cases o with
  | http code =>
    by_cases h : code = 200 <;> simp [h]
  | exn msg => rfl

theorem execute_power_cycle_rate_limited (p : ℕ) (lbl : String) (o : AdapterOutcome) :
    (_execute_power_cycle p lbl o).1.rate_limited = false := by
  unfold _execute_power_cycle
  cases o with
  | http code =>
    by_cases h : code = 200 <;> simp [h]
  | exn msg => rfl

theorem string_append_assoc (a b c : String) : a ++ b ++ c = a ++ (b ++ c) := by
  cases a; cases b; cases c
  exact congrArg String.mk (List.append_assoc _ _ _)

/-- The keys used inline by `get_port_status` coincide with
`_get_operation_key`. -/
theorem status_key_eq (p : ℕ) (op : String) :
    toString p ++ (":" ++ op) = _get_operation_key p op := by
  unfold _get_operation_key
  rw [string_append_assoc]

/-- `genericPowerOp` attempts either no device call or exactly one, and that
one is always the device-level action `POWER_CYCLE` on its own port. -/
theorem genericPowerOp_calls (lbl : String) (p : ℕ) (now : ℚ) (o : AdapterOutcome)
    (s : ControllerState) :
    (genericPowerOp lbl p now o s).2.2 = [] ∨
    (genericPowerOp lbl p now o s).2.2 = [{ port := p, deviceAction := "POWER_CYCLE" }] := by
  unfold genericPowerOp
  by_cases h1 : _is_port_operation_rate_limited s now p lbl = true
  · rw [if_pos h1]
    left
    rfl
  · rw [if_neg h1]
    by_cases h2 : _can_execute_immediately (_record_port_operation s now p lbl) now p = true
    · rw [if_pos h2]
      right
      exact execute_power_cycle_calls p lbl o
    · rw [if_neg h2]
      left
      rfl

/-- C3: `power_on_port` always succeeds with status `no_action_needed`, is
never rate-limited, makes no device call, records the `(port, power_on)`
timestamp in `last_operation_time`, and changes nothing else. -/
theorem C3_power_on_no_action (p : ℕ) (now : ℚ) (s : ControllerState) :
    (power_on_port p now s).1.success = true ∧
    (power_on_port p now s).1.status = some "no_action_needed" ∧
    (power_on_port p now s).1.rate_limited = false ∧
    (power_on_port p now s).2.2 = [] ∧
    (power_on_port p now s).2.1.last_operation_time =
      dictSet s.last_operation_time (_get_operation_key p "power_on") now ∧
    (power_on_port p now s).2.1.operation_queue = s.operation_queue ∧
    (power_on_port p now s).2.1.last_unifi_operation = s.last_unifi_operation :=
  ⟨rfl, rfl, rfl, rfl, rfl, rfl, rfl⟩

/-- C8: `power_off_port` and `power_cycle_port` are the same algorithm up to
the logical-operation label: both are instances of `genericPowerOp` at their
respective labels, and every device-level action either one issues is
`POWER_CYCLE`. -/
theorem C8_same_algorithm_up_to_label (p : ℕ) (now : ℚ) (o : AdapterOutcome)
    (s : ControllerState) :
    power_off_port p now o s = genericPowerOp "power_off" p now o s ∧
    power_cycle_port p now o s = genericPowerOp "power_cycle" p now o s ∧
    (power_off_port p now o s).2.2.all
      (fun c => c.deviceAction == "POWER_CYCLE") = true ∧
    (power_cycle_port p now o s).2.2.all
      (fun c => c.deviceAction == "POWER_CYCLE") = true := by
  refine ⟨rfl, rfl, ?_, ?_⟩
  · show (genericPowerOp "power_off" p now o s).2.2.all _ = true
    rcases genericPowerOp_calls "power_off" p now o s with h | h <;> simp [h]
  · show (genericPowerOp "power_cycle" p now o s).2.2.all _ = true
    rcases genericPowerOp_calls "power_cycle" p now o s with h | h <;> simp [h]

/-- C4: `get_port_status` answers the literal string `"status: stopped"`
exactly when the recorded power_off timestamp strictly exceeds the recorded
power_on timestamp (both defaulting to 0 when never recorded), answers
`"status: running"` otherwise, makes no device call, and depends on nothing
but those two entries of `last_operation_time`. -/
theorem C4_status_inference (p : ℕ) (s : ControllerState) :
    ((get_port_status p s).1.status =
      if dictGetD s.last_operation_time (_get_operation_key p "power_off") 0 >
         dictGetD s.last_operation_time (_get_operation_key p "power_on") 0
       then "status: stopped" else "status: running") ∧
    (get_port_status p s).1.success = true ∧
    (get_port_status p s).2 = [] ∧
    (∀ s' : ControllerState,
      dictGet s'.last_operation_time (_get_operation_key p "power_off") =
        dictGet s.last_operation_time (_get_operation_key p "power_off") →
      dictGet s'.last_operation_time (_get_operation_key p "power_on") =
        dictGet s.last_operation_time (_get_operation_key p "power_on") →
      get_port_status p s' = get_port_status p s) := by
  have hoff : (":power_off" : String) = ":" ++ "power_off" := rfl
  have hon : (":power_on" : String) = ":" ++ "power_on" := rfl
  refine ⟨?_, rfl, rfl, ?_⟩
  · show ("status: " ++ _) = _
    rw [hoff, hon, status_key_eq, status_key_eq]
    by_cases h : dictGetD s.last_operation_time (_get_operation_key p "power_off") 0 >
        dictGetD s.last_operation_time (_get_operation_key p "power_on") 0
    · rw [if_pos h, if_pos h]
      rfl
    · rw [if_neg h, if_neg h]
      rfl
  · intro s' h1 h2
    unfold get_port_status
    rw [hoff, hon, status_key_eq, status_key_eq]
    unfold dictGetD
    rw [h1, h2]

/-- Closed instance of the dependence clause of `C4_status_inference`: the
status of port 3 ignores entries for other ports and operations. -/
theorem C4_status_inference_witness :
    get_port_status 3 ⟨[("4:power_off", 7), ("3:power_cycle", 5)], [], []⟩ =
      get_port_status 3 initialState :=
  (C4_status_inference 3 initialState).2.2.2
    ⟨[("4:power_off", 7), ("3:power_cycle", 5)], [], []⟩ (by decide) (by decide)

/-! ### Branch equations for the shared power_off / power_cycle algorithm -/

theorem generic_eq_limited (lbl : String) (p : ℕ) (now : ℚ) (o : AdapterOutcome)
    (s : ControllerState) (h : _is_port_operation_rate_limited s now p lbl = true) :
    genericPowerOp lbl p now o s = (_get_rate_limit_response s now p lbl, s, []) := by
  unfold genericPowerOp
  rw [if_pos h]

theorem generic_eq_immediate (lbl : String) (p : ℕ) (now : ℚ) (o : AdapterOutcome)
    (s : ControllerState) (h1 : _is_port_operation_rate_limited s now p lbl = false)
    (h2 : _can_execute_immediately s now p = true) :
    genericPowerOp lbl p now o s =
      ((_execute_power_cycle p lbl o).1,
       (if (_execute_power_cycle p lbl o).1.success = true then
         { last_operation_time := dictSet s.last_operation_time (_get_operation_key p lbl) now,
           operation_queue := s.operation_queue,
           last_unifi_operation := dictSet s.last_unifi_operation p now }
       else
         { last_operation_time := dictSet s.last_operation_time (_get_operation_key p lbl) now,
           operation_queue := s.operation_queue,
           last_unifi_operation := s.last_unifi_operation } : ControllerState),
       (_execute_power_cycle p lbl o).2) := by
  simp only [genericPowerOp]
  rw [if_neg (by simp [h1]), can_execute_record, if_pos h2]
  by_cases h3 : (_execute_power_cycle p lbl o).1.success = true
  · rw [if_pos h3, if_pos h3]
    rfl
  · rw [if_neg h3, if_neg h3]
    rfl

theorem generic_eq_deferred (lbl : String) (p : ℕ) (now : ℚ) (o : AdapterOutcome)
    (s : ControllerState) (h1 : _is_port_operation_rate_limited s now p lbl = false)
    (h2 : _can_execute_immediately s now p = false) :
    genericPowerOp lbl p now o s =
      ({ success := true
         action := lbl
         port := p
         status := some "queued"
         queued_delay := some (max 0 (unifi_cooldown - (now - dictGetD s.last_unifi_operation p 0)))
         message := some ("Operation queued for execution in "
           ++ toString (max 0 (pyInt (unifi_cooldown - (now - dictGetD s.last_unifi_operation p 0))))
           ++ " seconds") },
       ({ last_operation_time := dictSet s.last_operation_time (_get_operation_key p lbl) now,
          operation_queue := s.operation_queue ++
            [{ port := p, action := lbl,
               delay := max 0 (unifi_cooldown - (now - dictGetD s.last_unifi_operation p 0)) }],
          last_unifi_operation := s.last_unifi_operation } : ControllerState),
       []) := by
  simp only [genericPowerOp]
  rw [if_neg (by simp [h1]), can_execute_record, if_neg (by simp [h2])]
  rfl

theorem generic_not_limited_rate_limited (lbl : String) (p : ℕ) (now : ℚ)
    (o : AdapterOutcome) (s : ControllerState)
    (h : _is_port_operation_rate_limited s now p lbl = false) :
    (genericPowerOp lbl p now o s).1.rate_limited = false := by
  by_cases h2 : _can_execute_immediately s now p = true
  · rw [generic_eq_immediate lbl p now o s h h2]
    exact execute_power_cycle_rate_limited p lbl o
  · rw [generic_eq_deferred lbl p now o s h (by simp at h2; exact h2)]

theorem isLimited_iff (s : ControllerState) (now : ℚ) (p : ℕ) (op : String) :
    _is_port_operation_rate_limited s now p op = true ↔
      ∃ t, dictGet s.last_operation_time (_get_operation_key p op) = some t ∧
        now - t < rate_limit_seconds := by
  unfold _is_port_operation_rate_limited
  cases hg : dictGet s.last_operation_time (_get_operation_key p op) <;> simp [hg]

theorem colon_not_mem_power_off : ':' ∉ ("power_off" : String).data := by decide

theorem colon_not_mem_power_cycle : ':' ∉ ("power_cycle" : String).data := by decide

theorem colon_not_mem_power_on : ':' ∉ ("power_on" : String).data := by decide

/-- Recording an operation for a different (port, operation) pair never
changes the rate-limit check of `(p, op)`, for the operation names the
coordinator actually uses. -/
theorem isLimited_record_other (s : ControllerState) (now now' : ℚ) (p p' : ℕ)
    (op op' : String)
    (hop : op = "power_off" ∨ op = "power_cycle")
    (hop' : op' = "power_off" ∨ op' = "power_cycle" ∨ op' = "power_on")
    (hne : p' ≠ p ∨ op' ≠ op) :
    _is_port_operation_rate_limited (_record_port_operation s now' p' op') now p op =
      _is_port_operation_rate_limited s now p op := by
  have hcf : ∀ q : String, q = "power_off" ∨ q = "power_cycle" ∨ q = "power_on" →
      ':' ∉ q.data := by
    rintro q (rfl | rfl | rfl)
    · exact colon_not_mem_power_off
    · exact colon_not_mem_power_cycle
    · exact colon_not_mem_power_on
  have hkey : _get_operation_key p' op' ≠ _get_operation_key p op := by
    intro h
    have := operation_key_inj (hcf op' hop') (hcf op (by tauto)) h
    rcases hne with hne | hne
    · exact hne this.1
    · exact hne this.2
  unfold _is_port_operation_rate_limited _record_port_operation
  rw [dictGet_dictSet_ne _ _ hkey]

/-- C1: a power_off / power_cycle request is rejected as rate-limited
(`success=false ∧ rate_limited=true`) iff an earlier request of the same
operation on the same port is recorded strictly less than 30 seconds
before `now`; records of any other (port, operation) pair never influence
that check. -/
theorem C1_rate_limit_window (p : ℕ) (now : ℚ) (o : AdapterOutcome) (s : ControllerState) :
    (((power_off_port p now o s).1.success = false ∧
        (power_off_port p now o s).1.rate_limited = true) ↔
      ∃ t, dictGet s.last_operation_time (_get_operation_key p "power_off") = some t ∧
        now - t < 30) ∧
    (((power_cycle_port p now o s).1.success = false ∧
        (power_cycle_port p now o s).1.rate_limited = true) ↔
      ∃ t, dictGet s.last_operation_time (_get_operation_key p "power_cycle") = some t ∧
        now - t < 30) ∧
    (∀ (p' : ℕ) (op op' : String) (now' : ℚ),
      (op = "power_off" ∨ op = "power_cycle") →
      (op' = "power_off" ∨ op' = "power_cycle" ∨ op' = "power_on") →
      (p' ≠ p ∨ op' ≠ op) →
      _is_port_operation_rate_limited (_record_port_operation s now' p' op') now p op =
        _is_port_operation_rate_limited s now p op) := by
  have main : ∀ lbl : String,
      (((genericPowerOp lbl p now o s).1.success = false ∧
          (genericPowerOp lbl p now o s).1.rate_limited = true) ↔
        ∃ t, dictGet s.last_operation_time (_get_operation_key p lbl) = some t ∧
          now - t < 30) := by
    intro lbl
    by_cases h : _is_port_operation_rate_limited s now p lbl = true
    · rw [generic_eq_limited lbl p now o s h]
      have hex := (isLimited_iff s now p lbl).mp h
      unfold rate_limit_seconds at hex
      exact ⟨fun _ => hex, fun _ => ⟨rfl, rfl⟩⟩
    · have hfalse : _is_port_operation_rate_limited s now p lbl = false := by
        simp at h
        exact h
      have hrl := generic_not_limited_rate_limited lbl p now o s hfalse
      constructor
      · intro hcontra
        rw [hrl] at hcontra
        exact absurd hcontra.2 (by simp)
      · intro hex
        exact absurd ((isLimited_iff s now p lbl).mpr
          (by unfold rate_limit_seconds; exact hex)) h
  exact ⟨main "power_off", main "power_cycle",
    fun p' op op' now' hop hop' hne =>
      isLimited_record_other s now now' p p' op op' hop hop' hne⟩

/-- Closed instance of C1: with `(3, power_off)` recorded at time 0, a
power_off on port 3 at time 5 is rejected as rate-limited, and recording
`(4, power_off)` does not make `(3, power_off)` limited. -/
theorem C1_rate_limit_window_witness :
    ((power_off_port 3 5 (AdapterOutcome.http 200)
        ⟨[("3:power_off", 0)], [], []⟩).1.success = false ∧
     (power_off_port 3 5 (AdapterOutcome.http 200)
        ⟨[("3:power_off", 0)], [], []⟩).1.rate_limited = true) ∧
    _is_port_operation_rate_limited
        (_record_port_operation initialState 0 4 "power_off") 5 3 "power_off" =
      _is_port_operation_rate_limited initialState 5 3 "power_off" :=
  ⟨(C1_rate_limit_window 3 5 (AdapterOutcome.http 200)
      ⟨[("3:power_off", 0)], [], []⟩).1.mpr ⟨0, rfl, by norm_num⟩,
   (C1_rate_limit_window 3 5 (AdapterOutcome.http 200) initialState).2.2 4 "power_off"
      "power_off" 0 (Or.inl rfl) (Or.inl rfl) (Or.inl (by decide))⟩

/-- C6: a rate-limited power_off / power_cycle request leaves the whole
coordinator state unchanged; an accepted one overwrites exactly the
`(port, op)` entry of `last_operation_time` with `now`, whatever the
adapter outcome and whichever branch (immediate or deferred) follows. -/
theorem C6_rate_limited_leaves_state (p : ℕ) (now : ℚ) (o : AdapterOutcome)
    (s : ControllerState) :
    ((power_off_port p now o s).1.rate_limited = true →
      (power_off_port p now o s).2.1 = s) ∧
    ((power_off_port p now o s).1.rate_limited = false →
      (power_off_port p now o s).2.1.last_operation_time =
        dictSet s.last_operation_time (_get_operation_key p "power_off") now) ∧
    ((power_cycle_port p now o s).1.rate_limited = true →
      (power_cycle_port p now o s).2.1 = s) ∧
    ((power_cycle_port p now o s).1.rate_limited = false →
      (power_cycle_port p now o s).2.1.last_operation_time =
        dictSet s.last_operation_time (_get_operation_key p "power_cycle") now) := by
  have main : ∀ lbl : String,
      ((genericPowerOp lbl p now o s).1.rate_limited = true →
        (genericPowerOp lbl p now o s).2.1 = s) ∧
      ((genericPowerOp lbl p now o s).1.rate_limited = false →
        (genericPowerOp lbl p now o s).2.1.last_operation_time =
          dictSet s.last_operation_time (_get_operation_key p lbl) now) := by
    intro lbl
    by_cases h : _is_port_operation_rate_limited s now p lbl = true
    · rw [generic_eq_limited lbl p now o s h]
      exact ⟨fun _ => rfl, fun hc => absurd hc (by simp [_get_rate_limit_response])⟩
    · have hfalse : _is_port_operation_rate_limited s now p lbl = false := by
        simp at h
        exact h
      have hrl := generic_not_limited_rate_limited lbl p now o s hfalse
      refine ⟨fun hc => absurd (hrl ▸ hc) (by simp), fun _ => ?_⟩
      by_cases h2 : _can_execute_immediately s now p = true
      · rw [generic_eq_immediate lbl p now o s hfalse h2]
        by_cases h3 : (_execute_power_cycle p lbl o).1.success = true
        · rw [if_pos h3]
        · rw [if_neg h3]
      · rw [generic_eq_deferred lbl p now o s hfalse (by simp at h2; exact h2)]
  exact ⟨(main "power_off").1, (main "power_off").2,
    (main "power_cycle").1, (main "power_cycle").2⟩

/-- Closed instance of C6: at time 5, a rate-limited power_off on port 3
leaves the state untouched, and an accepted one on a fresh state records its
timestamp. -/
theorem C6_rate_limited_leaves_state_witness :
    (power_off_port 3 5 (AdapterOutcome.http 200)
        ⟨[("3:power_off", 0)], [], []⟩).2.1 = ⟨[("3:power_off", 0)], [], []⟩ ∧
    (power_off_port 3 5 (AdapterOutcome.http 200) initialState).2.1.last_operation_time =
      dictSet initialState.last_operation_time (_get_operation_key 3 "power_off") 5 :=
  ⟨(C6_rate_limited_leaves_state 3 5 (AdapterOutcome.http 200)
      ⟨[("3:power_off", 0)], [], []⟩).1
      ((C1_rate_limit_window 3 5 (AdapterOutcome.http 200)
        ⟨[("3:power_off", 0)], [], []⟩).1.mpr ⟨0, rfl, by norm_num⟩).2,
   (C6_rate_limited_leaves_state 3 5 (AdapterOutcome.http 200) initialState).2.1 rfl⟩

theorem can_execute_iff (s : ControllerState) (now : ℚ) (p : ℕ) :
    _can_execute_immediately s now p = true ↔
      (dictGet s.last_unifi_operation p = none ∨
       ∃ t, dictGet s.last_unifi_operation p = some t ∧ now - t ≥ 10) := by
  unfold _can_execute_immediately unifi_cooldown
  cases hg : dictGet s.last_unifi_operation p <;> simp [hg]

theorem generic_deferred_outputs (lbl : String) (p : ℕ) (now : ℚ) (o : AdapterOutcome)
    (s : ControllerState) (t : ℚ)
    (hfree : _is_port_operation_rate_limited s now p lbl = false)
    (hg : dictGet s.last_unifi_operation p = some t) (hlt : now - t < 10) :
    (genericPowerOp lbl p now o s).2.2 = [] ∧
    (genericPowerOp lbl p now o s).2.1.operation_queue = s.operation_queue ++
      [{ port := p, action := lbl, delay := max 0 (10 - (now - t)) }] ∧
    (genericPowerOp lbl p now o s).1.success = true ∧
    (genericPowerOp lbl p now o s).1.status = some "queued" ∧
    (genericPowerOp lbl p now o s).1.queued_delay = some (max 0 (10 - (now - t))) := by
  have hcf : _can_execute_immediately s now p = false := by
    rw [Bool.eq_false_iff]
    intro hc
    rcases (can_execute_iff s now p).mp hc with hnone | hsome
    · rw [hg] at hnone
      exact Option.noConfusion hnone
    · obtain ⟨t', ht', hge⟩ := hsome
      rw [hg] at ht'
      have ht : t = t' := by
        injection ht'
      subst ht
      linarith
  have hgetd : dictGetD s.last_unifi_operation p 0 = t := by
    unfold dictGetD
    rw [hg]
    rfl
  rw [generic_eq_deferred lbl p now o s hfree hcf]
  unfold unifi_cooldown
  rw [hgetd]
  exact ⟨rfl, rfl, rfl, rfl, rfl⟩

/-- C2: when a power_off / power_cycle request is not rate-limited, the
device action runs synchronously exactly when the port has no device
activity record or at least 10 seconds have elapsed since it; otherwise
nothing is sent to the device, a job with delay `max 0 (10 - (now - last))`
is enqueued, and the result is a success with status `"queued"` carrying
that same delay. -/
theorem C2_device_cooldown_gate (p : ℕ) (now : ℚ) (o : AdapterOutcome)
    (s : ControllerState) :
    (_is_port_operation_rate_limited s now p "power_off" = false →
      ((dictGet s.last_unifi_operation p = none ∨
        (∃ t, dictGet s.last_unifi_operation p = some t ∧ now - t ≥ 10)) →
        (power_off_port p now o s).2.2 = [{ port := p, deviceAction := "POWER_CYCLE" }]) ∧
      (∀ t, dictGet s.last_unifi_operation p = some t → now - t < 10 →
        (power_off_port p now o s).2.2 = [] ∧
        (power_off_port p now o s).2.1.operation_queue = s.operation_queue ++
          [{ port := p, action := "power_off", delay := max 0 (10 - (now - t)) }] ∧
        (power_off_port p now o s).1.success = true ∧
        (power_off_port p now o s).1.status = some "queued" ∧
        (power_off_port p now o s).1.queued_delay = some (max 0 (10 - (now - t))))) ∧
    (_is_port_operation_rate_limited s now p "power_cycle" = false →
      ((dictGet s.last_unifi_operation p = none ∨
        (∃ t, dictGet s.last_unifi_operation p = some t ∧ now - t ≥ 10)) →
        (power_cycle_port p now o s).2.2 = [{ port := p, deviceAction := "POWER_CYCLE" }]) ∧
      (∀ t, dictGet s.last_unifi_operation p = some t → now - t < 10 →
        (power_cycle_port p now o s).2.2 = [] ∧
        (power_cycle_port p now o s).2.1.operation_queue = s.operation_queue ++
          [{ port := p, action := "power_cycle", delay := max 0 (10 - (now - t)) }] ∧
        (power_cycle_port p now o s).1.success = true ∧
        (power_cycle_port p now o s).1.status = some "queued" ∧
        (power_cycle_port p now o s).1.queued_delay = some (max 0 (10 - (now - t))))) := by
  have main : ∀ lbl : String, _is_port_operation_rate_limited s now p lbl = false →
      ((dictGet s.last_unifi_operation p = none ∨
        (∃ t, dictGet s.last_unifi_operation p = some t ∧ now - t ≥ 10)) →
        (genericPowerOp lbl p now o s).2.2 = [{ port := p, deviceAction := "POWER_CYCLE" }]) ∧
      (∀ t, dictGet s.last_unifi_operation p = some t → now - t < 10 →
        (genericPowerOp lbl p now o s).2.2 = [] ∧
        (genericPowerOp lbl p now o s).2.1.operation_queue = s.operation_queue ++
          [{ port := p, action := lbl, delay := max 0 (10 - (now - t)) }] ∧
        (genericPowerOp lbl p now o s).1.success = true ∧
        (genericPowerOp lbl p now o s).1.status = some "queued" ∧
        (genericPowerOp lbl p now o s).1.queued_delay = some (max 0 (10 - (now - t)))) := by
    intro lbl hfree
    constructor
    · intro hgate
      rw [generic_eq_immediate lbl p now o s hfree ((can_execute_iff s now p).mpr hgate)]
      exact execute_power_cycle_calls p lbl o
    · intro t hg hlt
      exact generic_deferred_outputs lbl p now o s t hfree hg hlt
  exact ⟨main "power_off", main "power_cycle"⟩

/-- Closed instance of C2: with device activity on port 3 at time 0 and a
power_off at time 2, nothing is sent and a job with delay 8 is queued; on
the fresh state the device call goes out synchronously. -/
theorem C2_device_cooldown_gate_witness :
    ((power_off_port 3 2 (AdapterOutcome.http 200)
        ⟨[], [], [(3, 0)]⟩).2.2 = [] ∧
     (power_off_port 3 2 (AdapterOutcome.http 200)
        ⟨[], [], [(3, 0)]⟩).1.queued_delay = some (max 0 (10 - (2 - 0))) ∧
     (power_off_port 3 2 (AdapterOutcome.http 200)
        ⟨[], [], [(3, 0)]⟩).2.1.operation_queue =
        [{ port := 3, action := "power_off", delay := max 0 (10 - (2 - 0)) }]) ∧
    (power_off_port 3 2 (AdapterOutcome.http 200) initialState).2.2 =
      [{ port := 3, deviceAction := "POWER_CYCLE" }] := by
  have hd := ((C2_device_cooldown_gate 3 2 (AdapterOutcome.http 200)
    ⟨[], [], [(3, 0)]⟩).1 rfl).2 0 rfl (by norm_num)
  have hi := ((C2_device_cooldown_gate 3 2 (AdapterOutcome.http 200)
    initialState).1 rfl).1 (Or.inl rfl)
  exact ⟨⟨hd.1, hd.2.2.2.2, hd.2.1⟩, hi⟩

/-- C10: whenever the deferred branch is taken with the port's device
activity `t` in the past (`t ≤ now`, `now - t < 10`), the enqueued delay and
the `queued_delay` of the result equal the unclamped `10 - (now - t)`, which
is strictly positive and at most 10 — the `max 0` clamp never fires. -/
theorem C10_deferred_delay_bounds (p : ℕ) (now : ℚ) (o : AdapterOutcome)
    (s : ControllerState) (t : ℚ) :
    dictGet s.last_unifi_operation p = some t → t ≤ now → now - t < 10 →
    (0 < 10 - (now - t) ∧ (10 : ℚ) - (now - t) ≤ 10 ∧
      max 0 (10 - (now - t)) = 10 - (now - t)) ∧
    (_is_port_operation_rate_limited s now p "power_off" = false →
      (power_off_port p now o s).1.queued_delay = some (10 - (now - t)) ∧
      (power_off_port p now o s).2.1.operation_queue = s.operation_queue ++
        [{ port := p, action := "power_off", delay := 10 - (now - t) }]) ∧
    (_is_port_operation_rate_limited s now p "power_cycle" = false →
      (power_cycle_port p now o s).1.queued_delay = some (10 - (now - t)) ∧
      (power_cycle_port p now o s).2.1.operation_queue = s.operation_queue ++
        [{ port := p, action := "power_cycle", delay := 10 - (now - t) }]) := by
  intro hg hle hlt
  have hpos : 0 < 10 - (now - t) := by linarith
  have hub : (10 : ℚ) - (now - t) ≤ 10 := by linarith
  have hmax : max 0 (10 - (now - t)) = 10 - (now - t) := max_eq_right (le_of_lt hpos)
  have main : ∀ lbl : String, _is_port_operation_rate_limited s now p lbl = false →
      (genericPowerOp lbl p now o s).1.queued_delay = some (10 - (now - t)) ∧
      (genericPowerOp lbl p now o s).2.1.operation_queue = s.operation_queue ++
        [{ port := p, action := lbl, delay := 10 - (now - t) }] := by
    intro lbl hfree
    have hd := generic_deferred_outputs lbl p now o s t hfree hg hlt
    rw [hmax] at hd
    exact ⟨hd.2.2.2.2, hd.2.1⟩
  exact ⟨⟨hpos, hub, hmax⟩, fun h => main "power_off" h, fun h => main "power_cycle" h⟩

/-- Closed instance of C10: device activity on port 3 at time 0, power_off
at time 2 → delay is exactly 8, positive and at most 10. -/
theorem C10_deferred_delay_bounds_witness :
    (0 < (10 : ℚ) - (2 - 0) ∧ (10 : ℚ) - (2 - 0) ≤ 10 ∧
      max 0 ((10 : ℚ) - (2 - 0)) = 10 - (2 - 0)) ∧
    (power_off_port 3 2 (AdapterOutcome.http 200)
      ⟨[], [], [(3, 0)]⟩).1.queued_delay = some (10 - (2 - 0)) :=
  have h := C10_deferred_delay_bounds 3 2 (AdapterOutcome.http 200)
    ⟨[], [], [(3, 0)]⟩ 0 rfl (by norm_num) (by norm_num)
  ⟨h.1, (h.2.1 rfl).1⟩

/-- C5 counterexample: with `(3, power_off)` recorded at time 0 and a second
power_off arriving at time 29.5, the request is rejected as rate-limited but
`retry_after` is `int(0.5) = 0`, which is NOT in the interval (0, 30]
required by the claim. -/
theorem C5_counterexample :
    (power_off_port 3 (59/2) (AdapterOutcome.http 200)
        ⟨[("3:power_off", 0)], [], []⟩).1.rate_limited = true ∧
    (power_off_port 3 (59/2) (AdapterOutcome.http 200)
        ⟨[("3:power_off", 0)], [], []⟩).1.retry_after = some 0 ∧
    ¬(0 < (0 : ℤ)) := by
  have hlim : _is_port_operation_rate_limited
      ⟨[("3:power_off", 0)], [], []⟩ (59/2) 3 "power_off" = true :=
    (isLimited_iff _ _ _ _).mpr ⟨0, rfl, by unfold rate_limit_seconds; norm_num⟩
  have heq : power_off_port 3 (59/2) (AdapterOutcome.http 200)
      ⟨[("3:power_off", 0)], [], []⟩ =
      (_get_rate_limit_response ⟨[("3:power_off", 0)], [], []⟩ (59/2) 3 "power_off",
       ⟨[("3:power_off", 0)], [], []⟩, []) :=
    generic_eq_limited "power_off" 3 (59/2) (AdapterOutcome.http 200) _ hlim
  rw [heq]
  refine ⟨rfl, ?_, by norm_num⟩
  show some (pyInt (rate_limit_seconds - (59/2 - dictGetD
    [("3:power_off", 0)] (_get_operation_key 3 "power_off") 0))) = some 0
  have hgetd : dictGetD ([("3:power_off", (0 : ℚ))])
      (_get_operation_key 3 "power_off") 0 = 0 := rfl
  rw [hgetd]
  have h2 : rate_limit_seconds - (59/2 - 0) = 1/2 := by
    unfold rate_limit_seconds
    norm_num
  rw [h2]
  have h3 : pyInt (1/2) = 0 := by
    unfold pyInt
    rw [if_pos (by norm_num), Int.floor_eq_zero_iff]
    constructor <;> norm_num
  rw [h3]

/-- C5 (amended): on a rate-limited rejection with the recorded timestamp in
the past, `retry_after` is the remaining cooldown truncated to whole seconds
(`⌊30 - elapsed⌋`), and lies in the closed interval [0, 30]; it is 0
whenever less than one second of cooldown remains. -/
theorem C5_amended_retry_after (p : ℕ) (now : ℚ) (o : AdapterOutcome)
    (s : ControllerState) :
    (∀ t, dictGet s.last_operation_time (_get_operation_key p "power_off") = some t →
      0 ≤ now - t → now - t < 30 →
      (power_off_port p now o s).1.rate_limited = true ∧
      (power_off_port p now o s).1.retry_after = some ⌊(30 : ℚ) - (now - t)⌋ ∧
      0 ≤ ⌊(30 : ℚ) - (now - t)⌋ ∧ ⌊(30 : ℚ) - (now - t)⌋ ≤ 30) ∧
    (∀ t, dictGet s.last_operation_time (_get_operation_key p "power_cycle") = some t →
      0 ≤ now - t → now - t < 30 →
      (power_cycle_port p now o s).1.rate_limited = true ∧
      (power_cycle_port p now o s).1.retry_after = some ⌊(30 : ℚ) - (now - t)⌋ ∧
      0 ≤ ⌊(30 : ℚ) - (now - t)⌋ ∧ ⌊(30 : ℚ) - (now - t)⌋ ≤ 30) := by
  have main : ∀ (lbl : String) t,
      dictGet s.last_operation_time (_get_operation_key p lbl) = some t →
      0 ≤ now - t → now - t < 30 →
      (genericPowerOp lbl p now o s).1.rate_limited = true ∧
      (genericPowerOp lbl p now o s).1.retry_after = some ⌊(30 : ℚ) - (now - t)⌋ ∧
      0 ≤ ⌊(30 : ℚ) - (now - t)⌋ ∧ ⌊(30 : ℚ) - (now - t)⌋ ≤ 30 := by
    intro lbl t hg h0 h30
    have hlim : _is_port_operation_rate_limited s now p lbl = true :=
      (isLimited_iff s now p lbl).mpr ⟨t, hg, by unfold rate_limit_seconds; linarith⟩
    rw [generic_eq_limited lbl p now o s hlim]
    have hgetd : dictGetD s.last_operation_time (_get_operation_key p lbl) 0 = t := by
      unfold dictGetD
      rw [hg]
      rfl
    refine ⟨rfl, ?_, ?_, ?_⟩
    · show some (pyInt (rate_limit_seconds -
        (now - dictGetD s.last_operation_time (_get_operation_key p lbl) 0))) = _
      rw [hgetd]
      unfold rate_limit_seconds pyInt
      rw [if_pos (by linarith)]
    · rw [Int.le_floor]
      push_cast
      linarith
    · have hle : (30 : ℚ) - (now - t) ≤ ((30 : ℤ) : ℚ) := by
        push_cast
        linarith
      calc ⌊(30 : ℚ) - (now - t)⌋ ≤ ⌊((30 : ℤ) : ℚ)⌋ := Int.floor_le_floor hle
      _ = 30 := Int.floor_intCast 30
  exact ⟨fun t => main "power_off" t, fun t => main "power_cycle" t⟩

/-- Closed instance of the amended C5: recorded at 0, retried at 2 →
`retry_after = 28`. -/
theorem C5_amended_retry_after_witness :
    (power_off_port 3 2 (AdapterOutcome.http 200)
      ⟨[("3:power_off", 0)], [], []⟩).1.rate_limited = true ∧
    (power_off_port 3 2 (AdapterOutcome.http 200)
      ⟨[("3:power_off", 0)], [], []⟩).1.retry_after = some 28 := by
  have h := (C5_amended_retry_after 3 2 (AdapterOutcome.http 200)
    ⟨[("3:power_off", 0)], [], []⟩).1 0 rfl (by norm_num) (by norm_num)
  refine ⟨h.1, ?_⟩
  rw [h.2.1]
  have h28 : (30 : ℚ) - (2 - 0) = ((28 : ℤ) : ℚ) := by push_cast; norm_num
  rw [h28, Int.floor_intCast]

/-- C7: a dequeued job is executed exactly once and then dropped (the queue
loses its head whatever the outcome, nothing is re-enqueued, no result map
is touched); `last_unifi_operation[port]` is overwritten exactly when the
adapter call succeeded, and the same holds for the immediate path of
power_off / power_cycle. -/
theorem C7_device_activity_on_success (now : ℚ) (o : AdapterOutcome)
    (s : ControllerState) :
    (∀ job rest, s.operation_queue = job :: rest →
      (queue_worker_step now o s).2 =
        [{ port := job.port, deviceAction := "POWER_CYCLE" }] ∧
      (queue_worker_step now o s).1.operation_queue = rest ∧
      ((_execute_power_cycle job.port job.action o).1.success = true →
        (queue_worker_step now o s).1.last_unifi_operation =
          dictSet s.last_unifi_operation job.port now) ∧
      ((_execute_power_cycle job.port job.action o).1.success = false →
        (queue_worker_step now o s).1.last_unifi_operation = s.last_unifi_operation) ∧
      (queue_worker_step now o s).1.last_operation_time = s.last_operation_time) ∧
    (∀ p, _is_port_operation_rate_limited s now p "power_off" = false →
      _can_execute_immediately s now p = true →
      ((_execute_power_cycle p "power_off" o).1.success = true →
        (power_off_port p now o s).2.1.last_unifi_operation =
          dictSet s.last_unifi_operation p now) ∧
      ((_execute_power_cycle p "power_off" o).1.success = false →
        (power_off_port p now o s).2.1.last_unifi_operation = s.last_unifi_operation)) ∧
    (∀ p, _is_port_operation_rate_limited s now p "power_cycle" = false →
      _can_execute_immediately s now p = true →
      ((_execute_power_cycle p "power_cycle" o).1.success = true →
        (power_cycle_port p now o s).2.1.last_unifi_operation =
          dictSet s.last_unifi_operation p now) ∧
      ((_execute_power_cycle p "power_cycle" o).1.success = false →
        (power_cycle_port p now o s).2.1.last_unifi_operation = s.last_unifi_operation)) := by
  have imm : ∀ (lbl : String) p, _is_port_operation_rate_limited s now p lbl = false →
      _can_execute_immediately s now p = true →
      ((_execute_power_cycle p lbl o).1.success = true →
        (genericPowerOp lbl p now o s).2.1.last_unifi_operation =
          dictSet s.last_unifi_operation p now) ∧
      ((_execute_power_cycle p lbl o).1.success = false →
        (genericPowerOp lbl p now o s).2.1.last_unifi_operation =
          s.last_unifi_operation) := by
    intro lbl p hfree himm
    rw [generic_eq_immediate lbl p now o s hfree himm]
    constructor
    · intro hsucc
      rw [if_pos hsucc]
    · intro hfail
      rw [if_neg (by rw [hfail]; simp)]
  refine ⟨?_, imm "power_off", imm "power_cycle"⟩
  intro job rest hq
  by_cases h3 : (_execute_power_cycle job.port job.action o).1.success = true
  · have hstep : queue_worker_step now o s =
        ({ last_operation_time := s.last_operation_time,
           operation_queue := rest,
           last_unifi_operation := dictSet s.last_unifi_operation job.port now },
         (_execute_power_cycle job.port job.action o).2) := by
      simp only [queue_worker_step, hq]
      rw [if_pos h3]
    rw [hstep, execute_power_cycle_calls]
    exact ⟨rfl, rfl, fun _ => rfl,
      fun hcontra => absurd h3 (by rw [hcontra]; simp), rfl⟩
  · have hstep : queue_worker_step now o s =
        ({ last_operation_time := s.last_operation_time,
           operation_queue := rest,
           last_unifi_operation := s.last_unifi_operation },
         (_execute_power_cycle job.port job.action o).2) := by
      simp only [queue_worker_step, hq]
      rw [if_neg h3]
    rw [hstep, execute_power_cycle_calls]
    exact ⟨rfl, rfl, fun hcontra => absurd hcontra h3, fun _ => rfl, rfl⟩

/-- Closed instance of C7: a queued power_off for port 3 whose adapter call
raises an exception leaves the device-activity map untouched and is dropped
from the queue. -/
theorem C7_device_activity_on_success_witness :
    (queue_worker_step 12 (AdapterOutcome.exn "boom")
        ⟨[], [{ port := 3, action := "power_off", delay := 8 }], [(3, 0)]⟩).1.last_unifi_operation
      = [(3, 0)] ∧
    (queue_worker_step 12 (AdapterOutcome.exn "boom")
        ⟨[], [{ port := 3, action := "power_off", delay := 8 }], [(3, 0)]⟩).1.operation_queue
      = [] := by
  have h := (C7_device_activity_on_success 12 (AdapterOutcome.exn "boom")
    ⟨[], [{ port := 3, action := "power_off", delay := 8 }], [(3, 0)]⟩).1
    { port := 3, action := "power_off", delay := 8 } [] rfl
  exact ⟨h.2.2.2.1 rfl, h.2.1⟩

/-- C9 is violated by the code: two power_cycle requests for port 3 arriving
at the same instant on a fresh controller, interleaved as check(A),
check(B), record(A), record(B) — a schedule the unlocked source permits —
are BOTH accepted, while the serialized schedule check(A), record(A),
check(B), record(B) accepts exactly one. So an interleaving of the
check-then-record steps does let both requests through. -/
theorem C9_race_both_accepted :
    ((runRace 3 "power_cycle" 0 [true, false, true, false]
        (initialState, ⟨0, false⟩, ⟨0, false⟩)).2.1.accepted = true ∧
     (runRace 3 "power_cycle" 0 [true, false, true, false]
        (initialState, ⟨0, false⟩, ⟨0, false⟩)).2.2.accepted = true) ∧
    ((runRace 3 "power_cycle" 0 [true, true, false, false]
        (initialState, ⟨0, false⟩, ⟨0, false⟩)).2.1.accepted = true ∧
     (runRace 3 "power_cycle" 0 [true, true, false, false]
        (initialState, ⟨0, false⟩, ⟨0, false⟩)).2.2.accepted = false) := by
  refine ⟨⟨rfl, rfl⟩, rfl, ?_⟩
  show (runRace 3 "power_cycle" 0 [false]
    (_record_port_operation initialState 0 3 "power_cycle",
     ⟨2, true⟩, ⟨1, !(_is_port_operation_rate_limited
       (_record_port_operation initialState 0 3 "power_cycle") 0 3 "power_cycle")⟩)).2.2.accepted
    = false
  have hlim : _is_port_operation_rate_limited
      (_record_port_operation initialState 0 3 "power_cycle") 0 3 "power_cycle" = true := by
    apply (isLimited_iff _ _ _ _).mpr
    refine ⟨0, ?_, by unfold rate_limit_seconds; norm_num⟩
    unfold _record_port_operation initialState
    exact dictGet_dictSet_self _ _ _
  rw [hlim]
  rfl

end UniFiWebhook
